import Mathlib

/-!
Shallow embedding of the urs-saas backend job execution engine and a
verification of its documented properties.

The definitions below are translated from the Python sources:
  backend/app/services/scraper.py    (Result Serializer, per-kind scrapers)
  backend/app/services/job_runner.py (Error Classifier, Execution Bridge, Supervisor task)
  backend/app/api/jobs.py            (cancel endpoint, Progress Streamer)

External collaborators (the Job Store, the Credential Vault, the PRAW data
provider client and the wall clock) are modelled as explicit parameters:
provider behaviour is the data the blocking client would yield (including a
possible exception raised after the yielded items), and store writes are
recorded as an explicit event trace rather than performed.
-/

set_option maxHeartbeats 4000000
set_option maxRecDepth 100000

/-! ## Timestamps: convert_timestamp (scraper.py)

Python: datetime.fromtimestamp(raw_timestamp, tz=timezone.utc).isoformat().
We model integral epoch seconds (PRAW created_utc values are integral floats)
and produce the same "YYYY-MM-DDTHH:MM:SS+00:00" text, using the standard
civil-from-days calendar algorithm. -/

def pad2 (n : Nat) : String :=
  if n < 10 then "0" ++ toString n else toString n

def pad4 (n : Nat) : String :=
  if n < 10 then "000" ++ toString n
  else if n < 100 then "00" ++ toString n
  else if n < 1000 then "0" ++ toString n
  else toString n

/-- Convert a day count since 1970-01-01 to a civil (year, month, day) date. -/
def civilFromDays (z : Nat) : Nat × Nat × Nat :=
  let d := z + 719468
  let era := d / 146097
  let doe := d % 146097
  let yoe := (doe - doe / 1460 + doe / 36524 - doe / 146097) / 365
  let y := yoe + era * 400
  let doy := doe - (365 * yoe + yoe / 4 - yoe / 100)
  let mp := (5 * doy + 2) / 153
  let day := doy - (153 * mp + 2) / 5 + 1
  let m := if mp < 10 then mp + 3 else mp - 9
  let year := if m ≤ 2 then y + 1 else y
  (year, m, day)

/-- Embeds convert_timestamp: UNIX epoch seconds to ISO 8601 UTC text. -/
def convert_timestamp (rawTimestamp : Nat) : String :=
  let days := rawTimestamp / 86400
  let secs := rawTimestamp % 86400
  let hh := secs / 3600
  let mm := (secs % 3600) / 60
  let ss := secs % 60
  match civilFromDays days with
  | (y, mo, d) =>
    pad4 y ++ "-" ++ pad2 mo ++ "-" ++ pad2 d ++ "T" ++
      pad2 hh ++ ":" ++ pad2 mm ++ ":" ++ pad2 ss ++ "+00:00"

/-! ## Raw provider records and their serialized shapes (scraper.py) -/

/-- Raw PRAW submission attributes read by serialize_submission. The author
is None for a deleted account (Python truthiness of a Redditor object). -/
structure RawSubmission where
  id : String
  title : String
  author : Option String
  subreddit : String
  score : Int
  upvote_ratio : Rat
  num_comments : Nat
  created_utc : Nat
  permalink : String
  url : String
  selftext : String
  is_self : Bool
  over_18 : Bool
  spoiler : Bool
  stickied : Bool
  locked : Bool
  distinguished : Option String
  link_flair_text : Option String

/-- Output dictionary of serialize_submission. -/
structure SerializedSubmission where
  id : String
  title : String
  author : String
  subreddit : String
  score : Int
  upvote_ratio : Rat
  num_comments : Nat
  created_utc : String
  permalink : String
  url : String
  selftext : String
  is_self : Bool
  nsfw : Bool
  spoiler : Bool
  stickied : Bool
  locked : Bool
  distinguished : Option String
  link_flair_text : Option String

/-- Embeds serialize_submission. -/
def serialize_submission (s : RawSubmission) : SerializedSubmission :=
  { id := s.id
    title := s.title
    author := match s.author with
      | some a => a
      | none => "[deleted]"
    subreddit := s.subreddit
    score := s.score
    upvote_ratio := s.upvote_ratio
    num_comments := s.num_comments
    created_utc := convert_timestamp s.created_utc
    permalink := s.permalink
    url := s.url
    selftext := s.selftext
    is_self := s.is_self
    nsfw := s.over_18
    spoiler := s.spoiler
    stickied := s.stickied
    locked := s.locked
    distinguished := s.distinguished
    link_flair_text := s.link_flair_text }

/-- Raw PRAW comment attributes read by serialize_comment. The edited field
carries the Python truthiness of comment.edited (False or a timestamp). -/
structure RawComment where
  id : String
  author : Option String
  body : String
  score : Int
  created_utc : Nat
  permalink : String
  is_submitter : Bool
  stickied : Bool
  distinguished : Option String
  edited : Bool
  parent_id : String

/-- Output dictionary of serialize_comment. -/
structure SerializedComment where
  id : String
  author : String
  body : String
  score : Int
  created_utc : String
  permalink : String
  is_submitter : Bool
  stickied : Bool
  distinguished : Option String
  edited : Bool
  parent_id : String
deriving DecidableEq, Repr

/-- Embeds serialize_comment. -/
def serialize_comment (c : RawComment) : SerializedComment :=
  { id := c.id
    author := match c.author with
      | some a => a
      | none => "[deleted]"
    body := c.body
    score := c.score
    created_utc := convert_timestamp c.created_utc
    permalink := c.permalink
    is_submitter := c.is_submitter
    stickied := c.stickied
    distinguished := c.distinguished
    edited := c.edited
    parent_id := c.parent_id }

/-! ## The comment forest after replace_more (scraper.py)

A node is either a real Comment (with its ordered replies) or a leftover
MoreComments object, which both the structured and the flat path skip via
the isinstance(comment, Comment) guard. -/

inductive RawNode where
  | comment : RawComment → List RawNode → RawNode
  | more : RawNode

mutual

def RawNode.size : RawNode → Nat
  | .more => 1
  | .comment _ rs => 1 + RawNode.sizeList rs

def RawNode.sizeList : List RawNode → Nat
  | [] => 0
  | r :: rs => RawNode.size r + RawNode.sizeList rs

end

theorem RawNode.sizeList_append (a b : List RawNode) :
    RawNode.sizeList (a ++ b) = RawNode.sizeList a + RawNode.sizeList b := by
  induction a with
  | nil => simp [RawNode.sizeList]
  | cons x xs ih => simp [RawNode.sizeList, ih]; ring

theorem RawNode.size_pos (n : RawNode) : 0 < RawNode.size n := by
  cases n <;> simp [RawNode.size]

/-- Replies of a node, as read by CommentForest.list (empty for MoreComments). -/
def RawNode.children : RawNode → List RawNode
  | .comment _ rs => rs
  | .more => []

theorem RawNode.sizeList_children_lt (r : RawNode) :
    RawNode.sizeList r.children < RawNode.size r := by
  cases r <;> simp [RawNode.children, RawNode.size, RawNode.sizeList]

/-- Embeds praw CommentForest.list(): a breadth-first flattening that appends
every queue element (including MoreComments) and enqueues real replies. -/
def bfsList (queue : List RawNode) : List RawNode :=
  match queue with
  | [] => []
  | c :: rest => c :: bfsList (rest ++ c.children)
termination_by RawNode.sizeList queue
decreasing_by
  simp only [RawNode.sizeList, RawNode.sizeList_append]
  rename RawNode => hd
  have := RawNode.sizeList_children_lt hd
  omega

/-! ## The structured comment tree (scraper.py _build_comment_tree) -/

/-- The dictionary built by process_comment: the serialize_comment fields
plus a depth and the ordered list of processed replies. -/
structure CommentNode where
  comment : SerializedComment
  depth : Nat
  replies : List CommentNode

mutual

/-- Embeds process_comment: MoreComments yield None, a Comment yields its
serialization, the given depth and its processed replies (depth + 1). -/
def process_comment : RawNode → Nat → Option CommentNode
  | .more, _ => none
  | .comment c rs, depth =>
    some { comment := serialize_comment c
           depth := depth
           replies := process_replies rs (depth + 1) }

/-- Embeds the reply loop of process_comment: replies whose processing
returns None (MoreComments) are skipped, order is preserved. -/
def process_replies : List RawNode → Nat → List CommentNode
  | [], _ => []
  | r :: rs, d =>
    match process_comment r d with
    | some x => x :: process_replies rs d
    | none => process_replies rs d

end

/-! ## Exceptions (prawcore hierarchy, as used by job_runner.py)

The classifier tests isinstance against prawcore classes. We record the
most-derived class of an exception together with the data the classifier
reads: the getattr chain result for response.status_code, and str(e).
The subclass relations below mirror prawcore.exceptions: TooManyRequests,
Forbidden, NotFound, ServerError and Redirect all derive from
ResponseException, which (like RequestException and OAuthException)
derives from PrawcoreException. -/

inductive ExcClass where
  | TooManyRequests
  | Forbidden
  | NotFound
  | ServerError
  | Redirect
  | ResponseExceptionBase
  | RequestException
  | OAuthException
  | PrawcoreExceptionBase
deriving DecidableEq, Repr

structure PrawExc where
  cls : ExcClass
  statusCode : Option Nat
  msg : String
deriving DecidableEq, Repr

/-- An exception reaching the job runner: a prawcore exception or one of the
ValueError instances the runner and the scraper raise themselves. -/
inductive Exc where
  | praw : PrawExc → Exc
  | valueError : String → Exc
deriving DecidableEq, Repr

def isTooManyRequests : Exc → Bool
  | .praw e => e.cls == ExcClass.TooManyRequests
  | _ => false

def isResponseException : Exc → Bool
  | .praw e =>
    match e.cls with
    | .TooManyRequests | .Forbidden | .NotFound | .ServerError | .Redirect
    | .ResponseExceptionBase => true
    | _ => false
  | _ => false

def isForbidden : Exc → Bool
  | .praw e => e.cls == ExcClass.Forbidden
  | _ => false

def isNotFound : Exc → Bool
  | .praw e => e.cls == ExcClass.NotFound
  | _ => false

def isServerError : Exc → Bool
  | .praw e => e.cls == ExcClass.ServerError
  | _ => false

def isRequestException : Exc → Bool
  | .praw e =>
    match e.cls with
    | .RequestException => true
    | _ => false
  | _ => false

def isOAuthException : Exc → Bool
  | .praw e => e.cls == ExcClass.OAuthException
  | _ => false

def isRedirect : Exc → Bool
  | .praw e => e.cls == ExcClass.Redirect
  | _ => false

def isPrawcoreException : Exc → Bool
  | .praw _ => true
  | _ => false

/-- Python str(e). -/
def excStr : Exc → String
  | .praw e => e.msg
  | .valueError m => m

/-- Python type(e).__name__ (used only by the classifier fallback). -/
def excTypeName : Exc → String
  | .valueError _ => "ValueError"
  | .praw e =>
    match e.cls with
    | .TooManyRequests => "TooManyRequests"
    | .Forbidden => "Forbidden"
    | .NotFound => "NotFound"
    | .ServerError => "ServerError"
    | .Redirect => "Redirect"
    | .ResponseExceptionBase => "ResponseException"
    | .RequestException => "RequestException"
    | .OAuthException => "OAuthException"
    | .PrawcoreExceptionBase => "PrawcoreException"

/-- The getattr(getattr(e, "response", None), "status_code", None) chain. -/
def excStatusCode : Exc → Option Nat
  | .praw e => e.statusCode
  | _ => none

/-- Python rendering of the possibly-None status code in the f-string. -/
def pyShowOptNat : Option Nat → String
  | some n => toString n
  | none => "None"

/-! ## Error Classifier: _format_error_message (job_runner.py) -/

def rateLimitedMessage : String :=
  "Rate limited by Reddit API (HTTP 429). " ++
  "Reddit limits API requests to prevent abuse. " ++
  "Please wait a few minutes before trying again, or reduce the number of items you\x27re scraping."

/-- Embeds _format_error_message: the isinstance chain from most specific
(TooManyRequests) to least specific (PrawcoreException), then the fallback. -/
def _format_error_message (e : Exc) : String :=
  if isTooManyRequests e then
    rateLimitedMessage
  else if isResponseException e then
    match excStatusCode e with
    | some 401 =>
      "Authentication failed (HTTP 401). " ++
      "Your Reddit API credentials may be invalid or expired. " ++
      "Please check your Client ID and Client Secret in Settings."
    | some 403 =>
      "Access forbidden (HTTP 403). " ++
      "You may not have permission to access this resource, " ++
      "or your Reddit app may need additional permissions."
    | some 404 =>
      "Resource not found (HTTP 404). " ++
      "The subreddit, user, or post you\x27re trying to scrape doesn\x27t exist or has been deleted."
    | some 500 =>
      "Reddit server error (HTTP 500). " ++
      "Reddit is experiencing issues. Please try again later."
    | some 503 =>
      "Reddit service unavailable (HTTP 503). " ++
      "Reddit servers are temporarily overloaded. Please try again in a few minutes."
    | sc =>
      "Reddit API error (HTTP " ++ pyShowOptNat sc ++ "): " ++ excStr e
  else if isForbidden e then
    "Access forbidden (HTTP 403). " ++
    "This subreddit may be private, quarantined, or you may be banned from it."
  else if isNotFound e then
    "Not found (HTTP 404). " ++
    "The subreddit, user, or submission doesn\x27t exist or has been deleted."
  else if isServerError e then
    "Reddit server error. " ++
    "Reddit is experiencing technical difficulties. Please try again later."
  else if isRequestException e then
    "Network error connecting to Reddit. " ++
    "Please check your internet connection and try again."
  else if isOAuthException e then
    "OAuth authentication error. " ++
    "Your Reddit API credentials are invalid. " ++
    "Please verify your Client ID and Client Secret in Settings."
  else if isRedirect e then
    "Redirect detected. " ++
    "This subreddit may have been renamed or moved. " ++
    "Please check the subreddit name and try again."
  else if isPrawcoreException e then
    "Reddit API error: " ++ excStr e
  else
    excTypeName e ++ ": " ++ excStr e

/-! ## IEEE-754 binary64 progress arithmetic

The progress expressions of the source are computed in Python floats:
int((current / total) * 100) in the update_progress callback, and
start + int((i + 1) / total * (end - start)) in the scraper loops. A
Python division of two ints is the exact rational rounded once to the
nearest binary64 (ties to even), the multiplication by the small integer
(converted exactly) rounds once more, and int() truncates toward zero.
pyIntDivMul embeds exactly that pipeline on naturals (all reachable
inputs are non-negative and well inside the normal double range):
roundDivD rounds a / b to 53 significant bits from the exact scaled
quotient and a sticky remainder, roundMulD rounds the exact product by
the multiplier, and truncD floors the non-negative result. This differs
from exact floor division at reachable inputs: int((29 / 100) * 100) is
28, not 29. -/

/-- Fuel-driven floor of the base-2 logarithm (the fuel makes it
kernel-computable; any fuel of at least the value itself is exact). -/
def log2Aux : Nat → Nat → Nat
  | 0, _ => 0
  | f + 1, n => if n ≤ 1 then 0 else log2Aux f (n / 2) + 1

def natLog2 (n : Nat) : Nat := log2Aux n n

theorem log2Aux_eq_log2 (f : Nat) : ∀ n, n ≤ f → log2Aux f n = Nat.log2 n := by
  induction f with
  | zero =>
    intro n hn
    interval_cases n
    rw [Nat.log2]
    rfl
  | succ f ih =>
    intro n hn
    by_cases h1 : n ≤ 1
    · rw [log2Aux, if_pos h1, Nat.log2, if_neg (by omega)]
    · rw [log2Aux, if_neg h1, Nat.log2, if_pos (by omega), ih (n / 2) (by omega)]

theorem natLog2_eq (n : Nat) : natLog2 n = Nat.log2 n :=
  log2Aux_eq_log2 n n le_rfl

theorem natLog2_lt_iff (n k : Nat) (h : n ≠ 0) : natLog2 n < k ↔ n < 2 ^ k := by
  rw [natLog2_eq]
  exact Nat.log2_lt h

theorem natLog2_zero : natLog2 0 = 0 := rfl

theorem lt_two_pow_natLog2_succ (n : Nat) : n < 2 ^ (natLog2 n + 1) := by
  rw [natLog2_eq]
  by_cases h : n = 0
  · subst h; norm_num
  · exact (Nat.log2_lt h).mp (Nat.lt_succ_self _)

/-- How many low bits of a positive integer lie below its top 53 bits. -/
def sigShift (q : Nat) : Nat := natLog2 q - 52

/-- Round the exact value q + eps (an integer q plus a fraction eps in
[0, 1) that is positive exactly when sticky holds) to 53 significant
bits, to nearest with ties to even. The result scale is 2 ^ sigShift q. -/
def roundSig (q : Nat) (sticky : Bool) : Nat :=
  if 2 ^ (sigShift q - 1) < q % 2 ^ sigShift q then q / 2 ^ sigShift q + 1
  else if q % 2 ^ sigShift q < 2 ^ (sigShift q - 1) then q / 2 ^ sigShift q
  else if sticky then q / 2 ^ sigShift q + 1
  else if q / 2 ^ sigShift q % 2 == 1 then q / 2 ^ sigShift q + 1
  else q / 2 ^ sigShift q

/-- The binary64 nearest to a / b (a, b positive), as a dyadic value
m * 2 ^ k: the quotient is scaled so its integer part carries more than
53 bits, then rounded with the remainder as sticky information. -/
def roundDivD (a b : Nat) : Nat × Int :=
  let t := 55 + natLog2 b
  let q := a * 2 ^ t / b
  let r := a * 2 ^ t % b
  (roundSig q (decide (0 < r)), (sigShift q : Int) - (t : Int))

/-- The binary64 nearest to (m * 2 ^ k) * mult: the integer product is
exact and rounded once to 53 bits (no rounding when it already fits). -/
def roundMulD (m : Nat) (k : Int) (mult : Nat) : Nat × Int :=
  let p := m * mult
  if natLog2 p ≤ 52 then (p, k)
  else (roundSig p false, k + (sigShift p : Int))

/-- Truncation toward zero of a non-negative dyadic value m * 2 ^ k. -/
def truncD (m : Nat) (k : Int) : Nat :=
  if 0 ≤ k then m * 2 ^ k.toNat else m / 2 ^ (-k).toNat

/-- Embeds the Python expression int((a / b) * mult) for naturals a, b:
one correctly rounded binary64 division, one correctly rounded binary64
multiplication, then truncation. -/
def pyIntDivMul (a b mult : Nat) : Nat :=
  if a == 0 || b == 0 then 0
  else
    truncD (roundMulD (roundDivD a b).1 (roundDivD a b).2 mult).1
      (roundMulD (roundDivD a b).1 (roundDivD a b).2 mult).2

theorem roundSig_le (q T : Nat) (sticky : Bool)
    (hq : q ≤ 2 ^ sigShift q * T)
    (hsticky : q = 2 ^ sigShift q * T → sticky = false) :
    roundSig q sticky ≤ T := by
  unfold roundSig
  have hpow : 0 < 2 ^ sigShift q := Nat.pos_pow_of_pos _ (by norm_num)
  have hhalf : 0 < 2 ^ (sigShift q - 1) := Nat.pos_pow_of_pos _ (by norm_num)
  have hhi : q / 2 ^ sigShift q ≤ T := by
    calc q / 2 ^ sigShift q ≤ 2 ^ sigShift q * T / 2 ^ sigShift q :=
          Nat.div_le_div_right hq
      _ = T := Nat.mul_div_cancel_left T hpow
  rcases Nat.lt_or_ge (q / 2 ^ sigShift q) T with h | h
  · split_ifs <;> omega
  · have hhiT : q / 2 ^ sigShift q = T := le_antisymm hhi h
    have hqe : q = 2 ^ sigShift q * T := by
      have h1 : T * 2 ^ sigShift q ≤ q := by
        rw [← hhiT]
        exact Nat.div_mul_le_self q _
      have h2 : 2 ^ sigShift q * T ≤ q := by rw [Nat.mul_comm]; exact h1
      omega
    have hlo : q % 2 ^ sigShift q = 0 := by
      nth_rewrite 1 [hqe]
      exact Nat.mul_mod_right _ _
    have hst : sticky = false := hsticky hqe
    rw [hlo, hst]
    split_ifs <;> omega

theorem roundDivD_le_one (a b : Nat) (ha : a ≠ 0) (hab : a ≤ b) :
    ∃ S : Nat, 52 ≤ S ∧ (roundDivD a b).2 = -(S : Int) ∧ (roundDivD a b).1 ≤ 2 ^ S := by
  have hb : 0 < b := by omega
  set t := 55 + natLog2 b with ht
  set q := a * 2 ^ t / b with hqdef
  have hrd : roundDivD a b =
      (roundSig q (decide (0 < a * 2 ^ t % b)), (sigShift q : Int) - (t : Int)) := rfl
  have hq54 : 2 ^ 54 ≤ q := by
    rw [hqdef, Nat.le_div_iff_mul_le hb]
    have hblt : b < 2 ^ (natLog2 b + 1) := lt_two_pow_natLog2_succ b
    have h1 : 2 ^ 54 * b ≤ 2 ^ 54 * 2 ^ (natLog2 b + 1) :=
      Nat.mul_le_mul_left _ (by omega)
    have h2 : 2 ^ 54 * 2 ^ (natLog2 b + 1) = 2 ^ t := by
      rw [← pow_add]
      congr 1
      omega
    have h3 : 2 ^ t ≤ a * 2 ^ t := Nat.le_mul_of_pos_left _ (by omega)
    omega
  have hq0 : q ≠ 0 := by
    have : (0:Nat) < 2 ^ 54 := by norm_num
    omega
  have hqt : q ≤ 2 ^ t := by
    rw [hqdef]
    calc a * 2 ^ t / b ≤ b * 2 ^ t / b :=
          Nat.div_le_div_right (Nat.mul_le_mul_right _ hab)
      _ = 2 ^ t := Nat.mul_div_cancel_left _ hb
  have hn54 : 54 ≤ natLog2 q := by
    by_contra h
    push_neg at h
    have := (natLog2_lt_iff q 54 hq0).mp h
    omega
  have hnt : natLog2 q ≤ t := by
    by_contra h
    push_neg at h
    have h2 : ¬ natLog2 q < t + 1 := by omega
    rw [natLog2_lt_iff q (t + 1) hq0] at h2
    have h3 : (2:Nat) ^ t < 2 ^ (t + 1) := by
      have : (2:Nat) ^ (t + 1) = 2 * 2 ^ t := by ring
      omega
    omega
  have hs2 : 2 ≤ sigShift q := by unfold sigShift; omega
  have hst : sigShift q ≤ t - 52 := by unfold sigShift; omega
  refine ⟨t - sigShift q, by omega, ?_, ?_⟩
  · rw [hrd]
    show (sigShift q : Int) - (t : Int) = -((t - sigShift q : Nat) : Int)
    omega
  · rw [hrd]
    show roundSig q (decide (0 < a * 2 ^ t % b)) ≤ 2 ^ (t - sigShift q)
    apply roundSig_le
    · rw [← pow_add]
      have : sigShift q + (t - sigShift q) = t := by omega
      rw [this]
      exact hqt
    · intro hqe
      have hq2t : q = 2 ^ t := by
        rw [hqe, ← pow_add]
        congr 1
        omega
      have hba : b ≤ a := by
        have h1 : (2:Nat) ^ t ≤ a * 2 ^ t / b := le_of_eq hq2t.symm
        rw [Nat.le_div_iff_mul_le hb] at h1
        have hp : 0 < (2:Nat) ^ t := Nat.pos_pow_of_pos _ (by norm_num)
        exact Nat.le_of_mul_le_mul_right
          (by calc b * 2 ^ t = 2 ^ t * b := by ring
                _ ≤ a * 2 ^ t := h1) hp
      have hab2 : a = b := le_antisymm hab hba
      have hr : a * 2 ^ t % b = 0 := by
        rw [hab2]
        exact Nat.mul_mod_right _ _
      simp [hr]

theorem truncD_neg (x c : Nat) : truncD x (-(c : Int)) = x / 2 ^ c := by
  unfold truncD
  by_cases h : c = 0
  · subst h
    simp
  · rw [if_neg (by omega)]
    congr 2
    omega

theorem truncD_roundMulD_le (m S mult : Nat) (hm : m ≤ 2 ^ S)
    (hmult : mult ≤ 2 ^ 50) :
    truncD (roundMulD m (-(S : Int)) mult).1 (roundMulD m (-(S : Int)) mult).2 ≤ mult := by
  have hrm : roundMulD m (-(S : Int)) mult =
      if natLog2 (m * mult) ≤ 52 then (m * mult, -(S : Int))
      else (roundSig (m * mult) false, -(S : Int) + (sigShift (m * mult) : Int)) := rfl
  set p := m * mult with hp
  have hpM : p ≤ mult * 2 ^ S := by
    calc p = m * mult := hp
      _ ≤ 2 ^ S * mult := Nat.mul_le_mul_right _ hm
      _ = mult * 2 ^ S := by ring
  have hpowS : 0 < (2:Nat) ^ S := Nat.pos_pow_of_pos _ (by norm_num)
  by_cases hc : natLog2 p ≤ 52
  · rw [hrm, if_pos hc, truncD_neg]
    calc p / 2 ^ S ≤ mult * 2 ^ S / 2 ^ S := Nat.div_le_div_right hpM
      _ = mult := Nat.mul_div_cancel _ hpowS
  · push_neg at hc
    have hp0 : p ≠ 0 := by
      intro h
      rw [h, natLog2_zero] at hc
      omega
    have hps : p ≤ 2 ^ (S + 50) := by
      calc p = m * mult := hp
        _ ≤ 2 ^ S * 2 ^ 50 := Nat.mul_le_mul hm hmult
        _ = 2 ^ (S + 50) := (pow_add 2 S 50).symm
    have hnp : natLog2 p ≤ S + 50 := by
      by_contra h
      push_neg at h
      have h2 : ¬ natLog2 p < S + 51 := by omega
      rw [natLog2_lt_iff p (S + 51) hp0] at h2
      have h3 : (2:Nat) ^ (S + 50) < 2 ^ (S + 51) := by
        have : (2:Nat) ^ (S + 51) = 2 * 2 ^ (S + 50) := by ring
        omega
      omega
    have hs2S : sigShift p ≤ S := by unfold sigShift; omega
    rw [hrm, if_neg (by omega)]
    have hk : (-(S : Int) + (sigShift p : Int)) = -((S - sigShift p : Nat) : Int) := by
      omega
    rw [hk, truncD_neg]
    have hpowd : 0 < (2:Nat) ^ (S - sigShift p) := Nat.pos_pow_of_pos _ (by norm_num)
    have hr : roundSig p false ≤ mult * 2 ^ (S - sigShift p) := by
      apply roundSig_le
      · have he : 2 ^ sigShift p * (mult * 2 ^ (S - sigShift p)) = mult * 2 ^ S := by
          rw [show mult * 2 ^ S = mult * (2 ^ sigShift p * 2 ^ (S - sigShift p)) by
            rw [← pow_add]
            congr 2
            omega]
          ring
        rw [he]
        exact hpM
      · intro _
        rfl
    calc roundSig p false / 2 ^ (S - sigShift p)
        ≤ mult * 2 ^ (S - sigShift p) / 2 ^ (S - sigShift p) := Nat.div_le_div_right hr
      _ = mult := Nat.mul_div_cancel _ hpowd

/-- The float pipeline never exceeds the multiplier when the quotient is
at most one: the rounded division of a by b with a at most b stays at
most 1.0, the rounded product stays at most the (exactly representable)
multiplier, and truncation only shrinks. -/
theorem pyIntDivMul_le_mult (a b mult : Nat) (hab : a ≤ b) (hmult : mult ≤ 2 ^ 50) :
    pyIntDivMul a b mult ≤ mult := by
  by_cases ha : a = 0
  · subst ha
    unfold pyIntDivMul
    simp
  · have hb : b ≠ 0 := by omega
    obtain ⟨S, _, hk, hm⟩ := roundDivD_le_one a b ha hab
    unfold pyIntDivMul
    rw [if_neg (by simp [ha, hb])]
    rw [hk]
    exact truncD_roundMulD_le (roundDivD a b).1 S mult hm hmult

/-! ## Progress callbacks

A progress_callback(current, total, message) invocation from the worker
thread, recorded rather than performed. All call sites pass non-negative
values, so current and total are naturals. -/

structure ProgressCall where
  current : Nat
  total : Nat
  message : String
deriving DecidableEq, Repr

/-! ## Listing scrape: ScraperService.scrape_subreddit -/

/-- The config dictionary of a subreddit job, after the .get defaults of
_run_scrape_sync have been applied. -/
structure SubredditConfig where
  subreddit : String
  category : String
  limit : Nat
  time_filter : Option String
  search_query : Option String

/-- Behaviour of the chosen PRAW listing generator: the submissions it
yields, then optionally an exception it raises after yielding them. -/
structure SubredditProvider where
  items : List RawSubmission
  failAfter : Option Exc
  now : String

structure SubredditSettings where
  subreddit : String
  category : String
  limit : Nat
  time_filter : Option String
  search_query : Option String

structure SubredditResult where
  scrape_settings : SubredditSettings
  data : List SerializedSubmission
  scraped_at : String

/-- Python truthiness of an optional string: None and the empty string are
falsy, so "if not search_query" fires on both. -/
def pyFalsyStr : Option String → Bool
  | none => true
  | some s => s.isEmpty

/-- Progress calls of the scrape_subreddit loop: one call (i+1, limit, ...)
per yielded submission. -/
def subredditLoopCalls (limit : Nat) (count : Nat) : List ProgressCall :=
  (List.range count).map fun i =>
    { current := i + 1, total := limit
      message := s!"Scraped {i + 1}/{limit} submissions" }

/-- The enumeration loop shared by every valid category: serialize each
yielded submission with a progress call, then surface the generator
exception if it raised one. -/
def subredditLoop (cfg : SubredditConfig) (prov : SubredditProvider) :
    List ProgressCall × Except Exc SubredditResult :=
  let calls := subredditLoopCalls cfg.limit prov.items.length
  match prov.failAfter with
  | some e => (calls, Except.error e)
  | none =>
    (calls, Except.ok
      { scrape_settings :=
          { subreddit := cfg.subreddit
            category := cfg.category
            limit := cfg.limit
            time_filter := cfg.time_filter
            search_query := cfg.search_query }
        data := prov.items.map serialize_submission
        scraped_at := prov.now })

/-- Embeds ScraperService.scrape_subreddit. The category chain picks a PRAW
listing generator (hot, new, rising, controversial, top, search); the
generator itself is the provider parameter, so every valid branch proceeds
to the same enumeration loop. Validation failures are raised before the
loop: a search without a query, and an unknown category. -/
def scrape_subreddit (cfg : SubredditConfig) (prov : SubredditProvider) :
    List ProgressCall × Except Exc SubredditResult :=
  if cfg.category == "hot" then subredditLoop cfg prov
  else if cfg.category == "new" then subredditLoop cfg prov
  else if cfg.category == "rising" then subredditLoop cfg prov
  else if cfg.category == "controversial" then subredditLoop cfg prov
  else if cfg.category == "top" then subredditLoop cfg prov
  else if cfg.category == "search" then
    if pyFalsyStr cfg.search_query then
      ([], Except.error (Exc.valueError "search_query is required for search category"))
    else subredditLoop cfg prov
  else
    let cat := cfg.category
    ([], Except.error (Exc.valueError s!"Invalid category: {cat}"))

/-! ## Profile scrape: ScraperService.scrape_redditor -/

structure RedditorConfig where
  username : String
  limit : Nat

/-- Raw PRAW redditor attributes read by the info block. -/
structure RawRedditor where
  name : String
  created_utc : Nat
  comment_karma : Int
  link_karma : Int
  is_gold : Bool
  is_mod : Bool

/-- The information dictionary: full info, or the degraded record built when
fetching profile info raised. -/
inductive RedditorInfo where
  | info (name : String) (created_utc : String) (comment_karma link_karma : Int)
      (is_gold is_mod : Bool)
  | fetchError (name : String) (error : String)

/-- One element of the submissions list: a serialized submission, or the
single error marker produced when the category fetch raised. -/
inductive ProfileSubmissionEntry where
  | sub : SerializedSubmission → ProfileSubmissionEntry
  | err : String → ProfileSubmissionEntry

/-- One element of the comments list of a profile scrape. -/
inductive ProfileCommentEntry where
  | com : SerializedComment → ProfileCommentEntry
  | err : String → ProfileCommentEntry

/-- Behaviour of the PRAW redditor client for one profile scrape. Each of
the two category listings yields its items and may then raise. -/
structure RedditorProvider where
  infoResult : Except Exc RawRedditor
  subsItems : List RawSubmission
  subsFail : Option Exc
  commentItems : List RawComment
  commentsFail : Option Exc
  now : String

structure RedditorSettings where
  redditor : String
  limit : Nat

structure RedditorData where
  information : RedditorInfo
  submissions : List ProfileSubmissionEntry
  comments : List ProfileCommentEntry

structure RedditorResult where
  scrape_settings : RedditorSettings
  data : RedditorData
  scraped_at : String

/-- Progress calls of the submissions loop: int((i+1)/limit*50) of 100,
computed in binary64 floats like the source. -/
def redditorSubsCalls (limit : Nat) (count : Nat) : List ProgressCall :=
  (List.range count).map fun i =>
    { current := pyIntDivMul (i + 1) limit 50, total := 100
      message := s!"Scraped {i + 1} submissions" }

/-- Progress calls of the comments loop: 50 + int((i+1)/limit*50) of 100,
computed in binary64 floats like the source. -/
def redditorCommentsCalls (limit : Nat) (count : Nat) : List ProgressCall :=
  (List.range count).map fun i =>
    { current := 50 + pyIntDivMul (i + 1) limit 50, total := 100
      message := s!"Scraped {i + 1} comments" }

/-- The submissions try block. When limit is 0 and the listing yields an
item, the progress expression divides by zero before the first callback,
and the except branch catches the ZeroDivisionError; otherwise the items
are serialized with a progress call each, and a listing exception degrades
the whole category to the one-element error list. -/
def redditorSubsSection (cfg : RedditorConfig) (prov : RedditorProvider) :
    List ProgressCall × List ProfileSubmissionEntry :=
  if cfg.limit == 0 && !prov.subsItems.isEmpty then
    ([], [ProfileSubmissionEntry.err "division by zero"])
  else
    let calls := redditorSubsCalls cfg.limit prov.subsItems.length
    match prov.subsFail with
    | some e => (calls, [ProfileSubmissionEntry.err (excStr e)])
    | none => (calls, prov.subsItems.map fun s => ProfileSubmissionEntry.sub (serialize_submission s))

/-- The comments try block, mirroring the submissions one at 50..100. -/
def redditorCommentsSection (cfg : RedditorConfig) (prov : RedditorProvider) :
    List ProgressCall × List ProfileCommentEntry :=
  if cfg.limit == 0 && !prov.commentItems.isEmpty then
    ([], [ProfileCommentEntry.err "division by zero"])
  else
    let calls := redditorCommentsCalls cfg.limit prov.commentItems.length
    match prov.commentsFail with
    | some e => (calls, [ProfileCommentEntry.err (excStr e)])
    | none => (calls, prov.commentItems.map fun c => ProfileCommentEntry.com (serialize_comment c))

/-- Embeds ScraperService.scrape_redditor. Every fetch is wrapped in a try,
so the function always returns a result; a failed info fetch degrades to a
name-plus-error record, and a failed category fetch degrades that category
to a one-element error list. -/
def scrape_redditor (cfg : RedditorConfig) (prov : RedditorProvider) :
    List ProgressCall × RedditorResult :=
  let info :=
    match prov.infoResult with
    | Except.ok r =>
      RedditorInfo.info r.name (convert_timestamp r.created_utc) r.comment_karma
        r.link_karma r.is_gold r.is_mod
    | Except.error _ => RedditorInfo.fetchError cfg.username "Could not fetch profile info"
  let subs := redditorSubsSection cfg prov
  let coms := redditorCommentsSection cfg prov
  let calls :=
    [({ current := 0, total := 100, message := "Fetching submissions..." } : ProgressCall)]
      ++ subs.1
      ++ [({ current := 50, total := 100, message := "Fetching comments..." } : ProgressCall)]
      ++ coms.1
  (calls,
    { scrape_settings := { redditor := cfg.username, limit := cfg.limit }
      data := { information := info, submissions := subs.2, comments := coms.2 }
      scraped_at := prov.now })

/-! ## Thread-comments scrape: ScraperService.scrape_comments -/

structure CommentsConfig where
  url : String
  limit : Nat
  structured : Bool

/-- Behaviour of the PRAW submission client for one comments scrape: the
submission metadata, the comment forest as it stands after replace_more,
and optionally an exception raised while fetching or resolving. -/
structure CommentsProvider where
  submission : RawSubmission
  forest : List RawNode
  fetchFail : Option Exc
  now : String

structure CommentsSettings where
  url : String
  limit : Nat
  structured : Bool

/-- The comments payload: a recursive tree in structured mode, a flat list
of serialized comments otherwise. -/
inductive CommentsPayload where
  | structuredTree : List CommentNode → CommentsPayload
  | flat : List SerializedComment → CommentsPayload

structure CommentsData where
  submission_metadata : SerializedSubmission
  comments : CommentsPayload
  total_comments : Nat

structure CommentsResult where
  scrape_settings : CommentsSettings
  data : CommentsData
  scraped_at : String

/-- Progress calls of the _build_comment_tree loop over the top-level
forest: start + int((i+1)/total*(end-start)) of 100, one per entry,
computed in binary64 floats like the source. -/
def buildTreeCalls (startP endP total : Nat) : List ProgressCall :=
  (List.range total).map fun i =>
    { current := startP + pyIntDivMul (i + 1) total (endP - startP), total := 100
      message := s!"Building tree: {i + 1}/{total}" }

/-- Embeds ScraperService._build_comment_tree: processes each top-level
entry at depth 0 (dropping MoreComments) while emitting one progress call
per entry. -/
def _build_comment_tree (forest : List RawNode) (startP endP : Nat) :
    List ProgressCall × List CommentNode :=
  (buildTreeCalls startP endP forest.length, process_replies forest 0)

/-- Progress calls of the flat branch: one call per serialized comment at
an index divisible by 10, over the BFS-flattened list. -/
def flatCalls (allComments : List RawNode) : List ProgressCall :=
  let total := allComments.length
  allComments.enum.filterMap fun p =>
    match p.2 with
    | RawNode.comment _ _ =>
      if p.1 % 10 == 0 then
        some { current := 50 + pyIntDivMul (p.1 + 1) total 50, total := 100
               message := s!"Processed {p.1 + 1}/{total} comments" }
      else none
    | RawNode.more => none

/-- The flat branch result: serialized real comments of the BFS list, in
list order, MoreComments skipped. -/
def flatComments (allComments : List RawNode) : List SerializedComment :=
  allComments.filterMap fun n =>
    match n with
    | RawNode.comment c _ => some (serialize_comment c)
    | RawNode.more => none

/-- Embeds ScraperService.scrape_comments. Progress: (10, 100) before
replace_more, (30, 100) after, then the structured branch builds the tree
with start_progress 50 and end_progress 100, while the flat branch walks
the BFS-flattened list at 50..100. A provider failure while fetching the
submission or resolving comments propagates as an exception. -/
def scrape_comments (cfg : CommentsConfig) (prov : CommentsProvider) :
    List ProgressCall × Except Exc CommentsResult :=
  match prov.fetchFail with
  | some e => ([], Except.error e)
  | none =>
    let allComments := bfsList prov.forest
    let totalComments := allComments.length
    let payloadCalls :=
      if cfg.structured then (_build_comment_tree prov.forest 50 100).1
      else flatCalls allComments
    let payload :=
      if cfg.structured then CommentsPayload.structuredTree (_build_comment_tree prov.forest 50 100).2
      else CommentsPayload.flat (flatComments allComments)
    let calls :=
      [({ current := 10, total := 100, message := "Loading comments..." } : ProgressCall),
       ({ current := 30, total := 100, message := "Processing comments..." } : ProgressCall)]
        ++ payloadCalls
    (calls, Except.ok
      { scrape_settings := { url := cfg.url, limit := cfg.limit, structured := cfg.structured }
        data :=
          { submission_metadata := serialize_submission prov.submission
            comments := payload
            total_comments := totalComments }
        scraped_at := prov.now })

/-! ## Execution Bridge and Supervisor task (job_runner.py) -/

/-- Embeds the update_progress callback of _run_scrape_sync: the value the
progress write stores. Python computes int((current / total) * 100) in
binary64 floats when total > 0 (else 0) and writes min(progress, 99); the
float computation can land one below the exact floor, as at (29, 100). -/
def update_progress_write (current total : Nat) : Nat :=
  let progress := if 0 < total then pyIntDivMul current total 100 else 0
  min progress 99

/-- A job together with the provider behaviour its blocking execution would
observe; job_type and the config dictionary select the scraper call in
_run_scrape_sync, and an unknown job_type raises a ValueError. -/
inductive JobSpec where
  | subredditJob : SubredditConfig → SubredditProvider → JobSpec
  | redditorJob : RedditorConfig → RedditorProvider → JobSpec
  | commentsJob : CommentsConfig → CommentsProvider → JobSpec
  | unknownType : String → JobSpec

/-- The result payload written by the success path. -/
inductive ResultData where
  | subredditRes : SubredditResult → ResultData
  | redditorRes : RedditorResult → ResultData
  | commentsRes : CommentsResult → ResultData

/-- Embeds _run_scrape_sync: dispatch on job_type to the scraper call,
returning the progress calls the worker issued and its result or the
exception it raised. -/
def _run_scrape_sync : JobSpec → List ProgressCall × Except Exc ResultData
  | .subredditJob cfg prov =>
    let r := scrape_subreddit cfg prov
    (r.1, r.2.map ResultData.subredditRes)
  | .redditorJob cfg prov =>
    let r := scrape_redditor cfg prov
    (r.1, Except.ok (ResultData.redditorRes r.2))
  | .commentsJob cfg prov =>
    let r := scrape_comments cfg prov
    (r.1, r.2.map ResultData.commentsRes)
  | .unknownType t => ([], Except.error (Exc.valueError s!"Unknown job type: {t}"))

/-- One update issued against the scrape_jobs table, carrying exactly the
fields of the corresponding Python update dictionary. -/
inductive StoreWrite where
  | setRunning (started_at : String)
  | setProgress (p : Nat)
  | setCompleted (result : ResultData) (completed_at : String)
  | setFailed (msg : String) (completed_at : String)
  | setCancelled (completed_at : String)

/-- An observable action of the supervised job task: a store write, the
dispatch of the blocking call onto the bounded worker pool, or the finally
block that drops the task from the background_jobs registry. -/
inductive Event where
  | store : StoreWrite → Event
  | dispatch : Event
  | unregister : Event

/-- Environment of one run_scrape_job execution: what the store and vault
return, the job and its provider behaviour, whether a CancelledError is
delivered at the await on the executor, and the two utcnow readings. -/
structure JobEnv where
  jobFound : Bool
  credsOk : Bool
  spec : JobSpec
  cancelledAtAwait : Bool
  startedAt : String
  completedAt : String

/-- Embeds run_scrape_job as its trace of observable actions. The running
write always happens first; a missing job record or missing credentials
raise a ValueError inside the try, which the except branch formats and
records as a failure; otherwise the work is dispatched to the worker pool,
whose progress callbacks become clamped progress writes. At the await, a
delivered CancelledError yields the cancelled write (the re-raise skips
the success write); otherwise the worker outcome yields the completed
write (progress forced to 100) or the classified failure write. The
finally block always unregisters the task exactly once at the end. -/
def run_scrape_job (env : JobEnv) : List Event :=
  let tryBody :=
    [Event.store (StoreWrite.setRunning env.startedAt)]
      ++ (if !env.jobFound then
            [Event.store (StoreWrite.setFailed
              (_format_error_message (Exc.valueError "Job not found")) env.completedAt)]
          else if !env.credsOk then
            [Event.store (StoreWrite.setFailed
              (_format_error_message (Exc.valueError
                "Reddit credentials not configured. Please add your credentials in Settings."))
              env.completedAt)]
          else
            let sync := _run_scrape_sync env.spec
            [Event.dispatch]
              ++ sync.1.map (fun c =>
                   Event.store (StoreWrite.setProgress (update_progress_write c.current c.total)))
              ++ (if env.cancelledAtAwait then
                    [Event.store (StoreWrite.setCancelled env.completedAt)]
                  else
                    match sync.2 with
                    | Except.ok r => [Event.store (StoreWrite.setCompleted r env.completedAt)]
                    | Except.error e =>
                      [Event.store (StoreWrite.setFailed (_format_error_message e) env.completedAt)]))
  tryBody ++ [Event.unregister]

/-- True when the execution reaches the success write. -/
def jobSucceeds (env : JobEnv) : Bool :=
  env.jobFound && env.credsOk && !env.cancelledAtAwait &&
    (match (_run_scrape_sync env.spec).2 with
     | Except.ok _ => true
     | Except.error _ => false)

/-! ## The persisted job record and the effect of each write -/

inductive JobStatus where
  | pending
  | running
  | completed
  | failed
  | cancelled
deriving DecidableEq, Repr

/-- The scrape_jobs fields the claims are about. -/
structure JobRecord where
  status : JobStatus
  progress : Nat
  result_data : Option ResultData
  error_message : Option String
  started_at : Option String
  completed_at : Option String

/-- Effect of one update on the stored record: exactly the fields of the
corresponding Python update dictionary change. -/
def applyWrite (r : JobRecord) : StoreWrite → JobRecord
  | .setRunning t => { r with status := JobStatus.running, started_at := some t }
  | .setProgress p => { r with progress := p }
  | .setCompleted res t =>
    { r with status := JobStatus.completed, progress := 100
             result_data := some res, completed_at := some t }
  | .setFailed m t =>
    { r with status := JobStatus.failed, error_message := some m, completed_at := some t }
  | .setCancelled t => { r with status := JobStatus.cancelled, completed_at := some t }

def applyEvent (r : JobRecord) : Event → JobRecord
  | .store w => applyWrite r w
  | _ => r

/-- The record after a trace of events has been applied to the store. -/
def runRecord (r : JobRecord) (tr : List Event) : JobRecord :=
  tr.foldl applyEvent r

/-! ## The in-process registry (main.py background_jobs) -/

/-- The background_jobs dictionary, as its membership function. -/
def Registry : Type := String → Bool

/-- Embeds start_scrape_job: background_jobs[job_id] = task. -/
def registryRegister (reg : Registry) (jobId : String) : Registry :=
  fun k => if k == jobId then true else reg k

/-- Effect of one task event on the registry: the finally block runs
"if job_id in background_jobs: del background_jobs[job_id]", which on a
dictionary is exactly an erase that is a no-op when the key is absent. -/
def applyEventRegistry (jobId : String) (reg : Registry) : Event → Registry
  | .unregister => fun k => if k == jobId then false else reg k
  | _ => reg

def runRegistry (jobId : String) (reg : Registry) (tr : List Event) : Registry :=
  tr.foldl (applyEventRegistry jobId) reg

/-! ## Cancel endpoint (jobs.py cancel_job) -/

/-- Outcome of the DELETE endpoint for a job id: 404 when no owned record
exists; for a running job, cancel the registered task (if any) and write
status cancelled; for any other status, delete the record permanently. -/
inductive CancelAction where
  | notFound
  | cancelRunningTask
  | deleteRecord
deriving DecidableEq, Repr

/-- Embeds cancel_job: ownership lookup, then the status branch. -/
def cancel_job (found : Bool) (st : JobStatus) : CancelAction :=
  if !found then CancelAction.notFound
  else if st == JobStatus.running then CancelAction.cancelRunningTask
  else CancelAction.deleteRecord

/-! ## Progress Streamer (jobs.py event_generator) -/

/-- One poll of the scrape_jobs row: the three selected columns. The
progress field is an integer column compared against the initial sentinel
-1, so it is carried as an Int. -/
structure JobView where
  status : String
  progress : Int
  error_message : Option String
deriving DecidableEq, Repr

/-- One server-sent event: the emitted data payload, or the error event
yielded when the job record has disappeared. -/
inductive StreamEvent where
  | dataEvent (status : String) (progress : Int) (error_message : Option String)
  | notFoundEvent
deriving DecidableEq, Repr

def isTerminalStatus (s : String) : Bool :=
  s == "completed" || s == "failed" || s == "cancelled"

/-- Embeds the polling loop of event_generator, driven by the sequence of
store states the successive ticks read. State: last_status (initially
None) and last_progress (initially -1). A tick emits when status or
progress differs from the last emitted pair, then stops if the status is
terminal. The input list is the store snapshots consumed tick by tick; an
empty remainder means the subscription is still live with nothing more
modelled. -/
def event_generator : Option String → Int → List (Option JobView) → List StreamEvent
  | _, _, [] => []
  | _, _, none :: _ => [StreamEvent.notFoundEvent]
  | lastS, lastP, some jv :: rest =>
    if some jv.status ≠ lastS ∨ jv.progress ≠ lastP then
      let ev := StreamEvent.dataEvent jv.status jv.progress jv.error_message
      if isTerminalStatus jv.status then [ev]
      else ev :: event_generator (some jv.status) jv.progress rest
    else
      if isTerminalStatus jv.status then []
      else event_generator lastS lastP rest

/-- Embeds the stream_job_progress generator entry: last_status = None and
last_progress = -1. -/
def stream_job_progress (polls : List (Option JobView)) : List StreamEvent :=
  event_generator none (-1) polls

/-- Modelled from the spec words for the C5 comparison: the streamer is
claimed to emit exactly when the (status, progress, error_message) triple
differs from the triple of the last emitted event. -/
def event_generator_triple_spec :
    Option (String × Int × Option String) → List (Option JobView) → List StreamEvent
  | _, [] => []
  | _, none :: _ => [StreamEvent.notFoundEvent]
  | last, some jv :: rest =>
    if some (jv.status, jv.progress, jv.error_message) ≠ last then
      let ev := StreamEvent.dataEvent jv.status jv.progress jv.error_message
      if isTerminalStatus jv.status then [ev]
      else ev :: event_generator_triple_spec (some (jv.status, jv.progress, jv.error_message)) rest
    else
      if isTerminalStatus jv.status then []
      else event_generator_triple_spec last rest

/-- The amended C5 deduplication: emit exactly when the (status, progress)
pair differs from the pair of the last emitted event. -/
def event_generator_pair_spec :
    Option (String × Int) → List (Option JobView) → List StreamEvent
  | _, [] => []
  | _, none :: _ => [StreamEvent.notFoundEvent]
  | last, some jv :: rest =>
    if some (jv.status, jv.progress) ≠ last then
      let ev := StreamEvent.dataEvent jv.status jv.progress jv.error_message
      if isTerminalStatus jv.status then [ev]
      else ev :: event_generator_pair_spec (some (jv.status, jv.progress)) rest
    else
      if isTerminalStatus jv.status then []
      else event_generator_pair_spec last rest

/-- Modelled from the spec words for the C6 comparison: an assembling phase
spanning 30 to 100 percent, linear over the count of already-resolved
top-level entries, would emit 30 + int((i+1)/total*70) for the i-th of
total entries. -/
def assemblingCallsSpecC6 (total : Nat) : List ProgressCall :=
  (List.range total).map fun i =>
    { current := 30 + (i + 1) * 70 / total, total := 100
      message := s!"Building tree: {i + 1}/{total}" }

/-! ## Shared event predicates and helper lemmas -/

/-- True of a store write that stores the progress value 100: a mid-flight
progress write of 100, or the final success write (which sets 100). -/
def writesProgress100 : Event → Bool
  | .store (.setProgress p) => p == 100
  | .store (.setCompleted _ _) => true
  | _ => false

def isStoreEvent : Event → Bool
  | .store _ => true
  | _ => false

def isUnregisterEvent : Event → Bool
  | .unregister => true
  | _ => false

def isTerminalWriteEvent : Event → Bool
  | .store (.setCompleted _ _) => true
  | .store (.setFailed _ _) => true
  | .store (.setCancelled _) => true
  | _ => false

def isCompletedWriteEvent : Event → Bool
  | .store (.setCompleted _ _) => true
  | _ => false

/-- The store event a worker progress callback turns into. -/
def progressEvent (c : ProgressCall) : Event :=
  Event.store (StoreWrite.setProgress (update_progress_write c.current c.total))

theorem update_progress_write_le (current total : Nat) :
    update_progress_write current total ≤ 99 :=
  Nat.min_le_right _ _

theorem countP_map_eq_zero {α β : Type} (f : α → β) (p : β → Bool) (l : List α)
    (h : ∀ a, p (f a) = false) : (l.map f).countP p = 0 := by
  induction l with
  | nil => rfl
  | cons x xs ih => simp [List.countP_cons, h, ih]

theorem writesProgress100_progressEvent (c : ProgressCall) :
    writesProgress100 (progressEvent c) = false := by
  have h := update_progress_write_le c.current c.total
  simp only [progressEvent, writesProgress100, beq_eq_false_iff_ne, ne_eq]
  omega

/-! ## C1: progress writes are clamped; 100 is written once, by success -/

/-- Modelled from the claim words for the C1 comparison: the progress
write is claimed to equal min(floor(current/total*100), 99) for total > 0
and 0 otherwise, with the division exact. -/
def progressWriteFloorSpecC1 (current total : Nat) : Nat :=
  if 0 < total then min (current * 100 / total) 99 else 0

/-- Counterexample to C1 as stated: at the reachable callback (29, 100)
(the 29th item of a listing scrape with limit 100; the config validator
allows limits up to 1000) the program computes int((29 / 100) * 100) in
binary64 floats, where 29 / 100 rounds below the exact ratio and the
product truncates to 28 — so the stored write is 28 where the exact-floor
formula of the claim gives 29. -/
theorem c1_counterexample :
    update_progress_write 29 100 = 28 ∧
    progressWriteFloorSpecC1 29 100 = 29 ∧
    update_progress_write 29 100 ≠ progressWriteFloorSpecC1 29 100 :=
  ⟨by decide, by decide, by decide⟩

/-- Amended C1: every progress value the worker callback writes while the
job runs equals min(int((current/total)*100), 99) with the inner
expression computed in binary64 floats, for total > 0 (and 0 for
total = 0) — in particular it always lies in [0, 99] — and across the
whole execution trace a write storing progress 100 happens exactly once
on a successful execution (the final success write) and never otherwise. -/
theorem c1_amended_progress_clamped (env : JobEnv) :
    (∀ current total, update_progress_write current total =
      (if 0 < total then min (pyIntDivMul current total 100) 99 else 0)) ∧
    (∀ current total, update_progress_write current total ≤ 99) ∧
    (∀ p, Event.store (StoreWrite.setProgress p) ∈ run_scrape_job env → p ≤ 99) ∧
    ((run_scrape_job env).countP writesProgress100 = if jobSucceeds env then 1 else 0) := by
  refine ⟨?_, fun current total => update_progress_write_le current total, ?_, ?_⟩
  · intro current total
    by_cases h : 0 < total <;> simp [update_progress_write, h]
  · intro p hp
    simp only [run_scrape_job, List.mem_append, List.mem_singleton, List.mem_cons,
      List.not_mem_nil, or_false] at hp
    rcases hp with (hp | hp) | hp
    · cases hp
    · by_cases hj : env.jobFound
      · by_cases hc : env.credsOk
        · simp only [hj, hc, Bool.not_true, Bool.false_eq_true, if_false] at hp
          rcases List.mem_append.mp hp with hp | hp
          · rcases List.mem_append.mp hp with hp | hp
            · simp at hp
            · rcases List.mem_map.mp hp with ⟨c, _, hc2⟩
              have : p = update_progress_write c.current c.total := by
                cases hc2; rfl
              rw [this]; exact update_progress_write_le _ _
          · by_cases hcanc : env.cancelledAtAwait
            · simp [hcanc] at hp
            · rcases h2 : (_run_scrape_sync env.spec).2 with r | e <;>
                simp [hcanc, h2] at hp
        · simp [hj, hc] at hp
      · simp [hj] at hp
    · cases hp
  · by_cases hj : env.jobFound
    · by_cases hc : env.credsOk
      · by_cases hcanc : env.cancelledAtAwait
        · rcases h2 : (_run_scrape_sync env.spec).2 with r | e <;>
            simp [run_scrape_job, jobSucceeds, hj, hc, hcanc, h2, List.countP_append,
              List.countP_cons, writesProgress100] <;>
            (intro a _; have := update_progress_write_le a.current a.total; omega)
        · rcases h2 : (_run_scrape_sync env.spec).2 with r | e <;>
            simp [run_scrape_job, jobSucceeds, hj, hc, hcanc, h2, List.countP_append,
              List.countP_cons, writesProgress100] <;>
            (intro a _; have := update_progress_write_le a.current a.total; omega)
      · simp [run_scrape_job, jobSucceeds, hj, hc, List.countP_append, List.countP_cons,
          writesProgress100]
    · simp [run_scrape_job, jobSucceeds, hj, List.countP_append, List.countP_cons,
        writesProgress100]

/-! ## Concrete fixtures used by witnesses and counterexamples -/

def sampleSubmission : RawSubmission :=
  { id := "s1", title := "hello", author := some "alice", subreddit := "lean"
    score := 3, upvote_ratio := 1, num_comments := 2, created_utc := 0
    permalink := "/r/lean/s1", url := "https://x", selftext := "", is_self := true
    over_18 := false, spoiler := false, stickied := false, locked := false
    distinguished := none, link_flair_text := none }

def sampleComment : RawComment :=
  { id := "c1", author := some "bob", body := "first", score := 1, created_utc := 0
    permalink := "/r/lean/s1/c1", is_submitter := false, stickied := false
    distinguished := none, edited := false, parent_id := "t3_s1" }

def sampleComment2 : RawComment :=
  { id := "c2", author := none, body := "second", score := 2, created_utc := 60
    permalink := "/r/lean/s1/c2", is_submitter := true, stickied := false
    distinguished := none, edited := true, parent_id := "t3_s1" }

def envC1 : JobEnv :=
  { jobFound := true, credsOk := true, cancelledAtAwait := false
    startedAt := "2024-01-01T00:00:00", completedAt := "2024-01-01T00:01:00"
    spec := JobSpec.subredditJob
      { subreddit := "lean", category := "hot", limit := 2
        time_filter := none, search_query := none }
      { items := [sampleSubmission], failAfter := none, now := "2024-01-01T00:00:30" } }

/-- Witness for the amended C1 at a concrete execution: the float formula
and the clamp evaluated at (29, 100), the bound discharged for the one
progress write the trace holds, and the success trace counting exactly
one write of 100. -/
theorem c1_witness :
    update_progress_write 29 100 =
      (if 0 < 100 then min (pyIntDivMul 29 100 100) 99 else 0) ∧
    update_progress_write 29 100 ≤ 99 ∧
    (50 : Nat) ≤ 99 ∧
    (run_scrape_job envC1).countP writesProgress100 = 1 := by
  refine ⟨(c1_amended_progress_clamped envC1).1 29 100,
    (c1_amended_progress_clamped envC1).2.1 29 100, ?_, ?_⟩
  · exact (c1_amended_progress_clamped envC1).2.2.1 50
      (List.Mem.tail _ (List.Mem.tail _ (List.Mem.head _)))
  · exact ((c1_amended_progress_clamped envC1).2.2.2).trans rfl

/-! ## C2: the rate-limit class is matched before the generic families -/

/-- Claim C2: a rate-limit exception (prawcore TooManyRequests) always
classifies to the RateLimited message and never to the generic
provider-error message, although it also belongs to the prawcore family
matched by the catch-all branch. -/
theorem c2_rate_limit_most_specific (e : Exc) (h : isTooManyRequests e = true) :
    isPrawcoreException e = true ∧
    _format_error_message e = rateLimitedMessage ∧
    (∀ m : String, _format_error_message e ≠ "Reddit API error: " ++ m) := by
  have hmsg : _format_error_message e = rateLimitedMessage := by
    simp [_format_error_message, h]
  refine ⟨?_, hmsg, ?_⟩
  · cases e with
    | praw pe => rfl
    | valueError m => simp [isTooManyRequests] at h
  · intro m hm
    rw [hmsg] at hm
    have h2 := congrArg (fun s : String => s.data[1]?) hm
    simp only [String.data_append] at h2
    rw [List.getElem?_append_left (by decide)] at h2
    exact absurd h2 (by decide)

def excC2 : Exc :=
  Exc.praw { cls := ExcClass.TooManyRequests, statusCode := some 429
             msg := "received 429 HTTP response" }

/-- Witness for C2 at a concrete TooManyRequests exception. -/
theorem c2_witness :
    isPrawcoreException excC2 = true ∧
    _format_error_message excC2 = rateLimitedMessage ∧
    _format_error_message excC2 ≠ "Reddit API error: " ++ excStr excC2 :=
  ⟨(c2_rate_limit_most_specific excC2 rfl).1,
   (c2_rate_limit_most_specific excC2 rfl).2.1,
   (c2_rate_limit_most_specific excC2 rfl).2.2 (excStr excC2)⟩

/-! ## C10: the cancel endpoint deletes every non-running owned job -/

/-- Claim C10: invoking the cancel endpoint on an owned job whose stored
status is not running (pending, completed, failed or cancelled) deletes
the record permanently; only a running job is transitioned to cancelled. -/
theorem c10_cancel_deletes_non_running :
    cancel_job true JobStatus.pending = CancelAction.deleteRecord ∧
    cancel_job true JobStatus.completed = CancelAction.deleteRecord ∧
    cancel_job true JobStatus.failed = CancelAction.deleteRecord ∧
    cancel_job true JobStatus.cancelled = CancelAction.deleteRecord ∧
    cancel_job true JobStatus.running = CancelAction.cancelRunningTask ∧
    (∀ st : JobStatus, st ≠ JobStatus.running →
      cancel_job true st = CancelAction.deleteRecord) := by
  refine ⟨rfl, rfl, rfl, rfl, rfl, ?_⟩
  intro st hst
  cases st <;> simp_all [cancel_job]

/-- Witness for C10: the universally quantified part applied at failed. -/
theorem c10_witness : cancel_job true JobStatus.failed = CancelAction.deleteRecord :=
  c10_cancel_deletes_non_running.2.2.2.2.2 JobStatus.failed (by decide)

/-! ## C9: the finally block unregisters exactly once, on every path -/

/-- Claim C9: every execution of run_scrape_job, whatever its terminal
outcome (completed, failed or cancelled), performs the registry cleanup
of its own entry exactly once, as its very last action, and afterwards the
background_jobs registry no longer holds the job id — even if the entry
was registered before the run. -/
theorem c9_unregister_exactly_once (env : JobEnv) (reg : Registry) (jobId : String) :
    (run_scrape_job env).countP isUnregisterEvent = 1 ∧
    (run_scrape_job env).getLast? = some Event.unregister ∧
    runRegistry jobId (registryRegister reg jobId) (run_scrape_job env) jobId = false := by
  refine ⟨?_, ?_, ?_⟩
  · by_cases hj : env.jobFound
    · by_cases hc : env.credsOk
      · by_cases hcanc : env.cancelledAtAwait
        · rcases h2 : (_run_scrape_sync env.spec).2 with r | e <;>
            simp [run_scrape_job, hj, hc, hcanc, h2, List.countP_append, List.countP_cons,
              isUnregisterEvent]
        · rcases h2 : (_run_scrape_sync env.spec).2 with r | e <;>
            simp [run_scrape_job, hj, hc, hcanc, h2, List.countP_append, List.countP_cons,
              isUnregisterEvent]
      · simp [run_scrape_job, hj, hc, List.countP_append, List.countP_cons, isUnregisterEvent]
    · simp [run_scrape_job, hj, List.countP_append, List.countP_cons, isUnregisterEvent]
  · exact List.getLast?_concat _
  · show List.foldl (applyEventRegistry jobId) _ (_ ++ [Event.unregister]) jobId = false
    rw [List.foldl_append]
    simp [applyEventRegistry]

/-! ## C4: result_data iff completed, error_message iff failed -/

/-- Progress writes touch only the progress column: folding any worker
progress-write block over a record changes at most its progress field. -/
theorem runRecord_progress_map_eq (calls : List ProgressCall) (r : JobRecord) :
    ∃ p, runRecord r (calls.map fun c =>
        Event.store (StoreWrite.setProgress (update_progress_write c.current c.total)))
      = { r with progress := p } := by
  induction calls generalizing r with
  | nil => exact ⟨r.progress, rfl⟩
  | cons c cs ih =>
    obtain ⟨p, hp⟩ := ih { r with progress := update_progress_write c.current c.total }
    exact ⟨p, hp⟩

/-- Claim C4: starting from any record with neither result_data nor
error_message set (as a freshly claimed pending job), the record left by a
full run_scrape_job execution satisfies: result_data is set iff the status
is completed, error_message is set iff the status is failed, the two are
never set simultaneously — and the execution issues exactly one terminal
write (completed, failed or cancelled). -/
theorem c4_terminal_writes_keep_invariant (env : JobEnv) (r0 : JobRecord)
    (hres : r0.result_data = none) (herr : r0.error_message = none) :
    (((runRecord r0 (run_scrape_job env)).result_data.isSome = true) ↔
      (runRecord r0 (run_scrape_job env)).status = JobStatus.completed) ∧
    (((runRecord r0 (run_scrape_job env)).error_message.isSome = true) ↔
      (runRecord r0 (run_scrape_job env)).status = JobStatus.failed) ∧
    ¬((runRecord r0 (run_scrape_job env)).result_data.isSome = true ∧
      (runRecord r0 (run_scrape_job env)).error_message.isSome = true) ∧
    (run_scrape_job env).countP isTerminalWriteEvent = 1 := by
  obtain ⟨p, hp⟩ := runRecord_progress_map_eq (_run_scrape_sync env.spec).1
    { status := JobStatus.running, progress := r0.progress, result_data := none
      error_message := none, started_at := some env.startedAt
      completed_at := r0.completed_at }
  simp only [runRecord] at hp
  by_cases hj : env.jobFound
  · by_cases hc : env.credsOk
    · by_cases hcanc : env.cancelledAtAwait
      · have htr : run_scrape_job env =
            Event.store (StoreWrite.setRunning env.startedAt) :: Event.dispatch ::
              ((_run_scrape_sync env.spec).1.map (fun c =>
                Event.store (StoreWrite.setProgress (update_progress_write c.current c.total)))
                ++ [Event.store (StoreWrite.setCancelled env.completedAt), Event.unregister]) := by
          simp [run_scrape_job, hj, hc, hcanc]
        rw [htr]
        refine ⟨?_, ?_, ?_, ?_⟩ <;>
          simp [runRecord, List.foldl_cons, List.foldl_append, applyEvent, applyWrite,
            List.countP_append, List.countP_cons, isTerminalWriteEvent, hres, herr, hp]
      · rcases h2 : (_run_scrape_sync env.spec).2 with e | r
        · have htr : run_scrape_job env =
              Event.store (StoreWrite.setRunning env.startedAt) :: Event.dispatch ::
                ((_run_scrape_sync env.spec).1.map (fun c =>
                  Event.store (StoreWrite.setProgress (update_progress_write c.current c.total)))
                  ++ [Event.store (StoreWrite.setFailed (_format_error_message e) env.completedAt),
                      Event.unregister]) := by
            simp [run_scrape_job, hj, hc, hcanc, h2]
          rw [htr]
          refine ⟨?_, ?_, ?_, ?_⟩ <;>
            simp [runRecord, List.foldl_cons, List.foldl_append, applyEvent, applyWrite,
              List.countP_append, List.countP_cons, isTerminalWriteEvent, hres, herr, hp]
        · have htr : run_scrape_job env =
              Event.store (StoreWrite.setRunning env.startedAt) :: Event.dispatch ::
                ((_run_scrape_sync env.spec).1.map (fun c =>
                  Event.store (StoreWrite.setProgress (update_progress_write c.current c.total)))
                  ++ [Event.store (StoreWrite.setCompleted r env.completedAt), Event.unregister]) := by
            simp [run_scrape_job, hj, hc, hcanc, h2]
          rw [htr]
          refine ⟨?_, ?_, ?_, ?_⟩ <;>
            simp [runRecord, List.foldl_cons, List.foldl_append, applyEvent, applyWrite,
              List.countP_append, List.countP_cons, isTerminalWriteEvent, hres, herr, hp]
    · refine ⟨?_, ?_, ?_, ?_⟩ <;>
        simp [run_scrape_job, hj, hc, runRecord, List.foldl_cons, applyEvent, applyWrite,
          List.countP_append, List.countP_cons, isTerminalWriteEvent, hres, herr]
  · refine ⟨?_, ?_, ?_, ?_⟩ <;>
      simp [run_scrape_job, hj, runRecord, List.foldl_cons, applyEvent, applyWrite,
        List.countP_append, List.countP_cons, isTerminalWriteEvent, hres, herr]

def recordC4 : JobRecord :=
  { status := JobStatus.pending, progress := 0, result_data := none
    error_message := none, started_at := none, completed_at := none }

/-- Witness for C4 at the concrete successful execution of envC1 starting
from a fresh pending record. -/
theorem c4_witness :
    ((runRecord recordC4 (run_scrape_job envC1)).status = JobStatus.completed) ∧
    ((runRecord recordC4 (run_scrape_job envC1)).result_data.isSome = true) ∧
    ((runRecord recordC4 (run_scrape_job envC1)).error_message.isSome = false) ∧
    (run_scrape_job envC1).countP isTerminalWriteEvent = 1 := by
  have h := c4_terminal_writes_keep_invariant envC1 recordC4 rfl rfl
  refine ⟨?_, ?_, ?_, h.2.2.2⟩
  · exact h.1.mp (by rfl)
  · exact h.1.mpr (by rfl)
  · rfl

/-! ## C3: search without a query fails inside the worker, after dispatch -/

def cfgC3 : SubredditConfig :=
  { subreddit := "lean", category := "search", limit := 5
    time_filter := none, search_query := none }

def provC3 : SubredditProvider := { items := [], failAfter := none, now := "N" }

def envC3 : JobEnv :=
  { jobFound := true, credsOk := true, cancelledAtAwait := false
    startedAt := "S", completedAt := "C"
    spec := JobSpec.subredditJob cfgC3 provC3 }

/-- Counterexample to C3 as stated: for a concrete listing job with
category search and no query, the execution trace does contain a dispatch
to the bounded worker pool (the validation ValueError is raised inside the
worker, not before dispatch), and the store receives two writes (the
running write and the failure write), not just the one recording the
validation failure. -/
theorem c3_counterexample :
    run_scrape_job envC3 =
      [Event.store (StoreWrite.setRunning "S"), Event.dispatch,
       Event.store (StoreWrite.setFailed
         "ValueError: search_query is required for search category" "C"),
       Event.unregister] ∧
    Event.dispatch ∈ run_scrape_job envC3 ∧
    (run_scrape_job envC3).countP isStoreEvent = 2 :=
  ⟨rfl, List.Mem.tail _ (List.Mem.head _), rfl⟩

/-- Amended C3: a listing job whose config has category search and a falsy
search query is dispatched to the worker pool, where scrape_subreddit
raises the validation ValueError before serializing any item and before
any progress callback; the trace is exactly the running write, the
dispatch, the invalid-configuration failure write, and the registry
cleanup — in particular no progress write occurs. -/
theorem c3_amended (cfg : SubredditConfig) (prov : SubredditProvider) (env : JobEnv)
    (hcat : cfg.category = "search") (hq : pyFalsyStr cfg.search_query = true)
    (hspec : env.spec = JobSpec.subredditJob cfg prov)
    (hj : env.jobFound = true) (hc : env.credsOk = true)
    (hx : env.cancelledAtAwait = false) :
    run_scrape_job env =
      [Event.store (StoreWrite.setRunning env.startedAt), Event.dispatch,
       Event.store (StoreWrite.setFailed
         "ValueError: search_query is required for search category" env.completedAt),
       Event.unregister] := by
  have hsync : _run_scrape_sync env.spec =
      ([], Except.error (Exc.valueError "search_query is required for search category")) := by
    rw [hspec]
    simp [_run_scrape_sync, scrape_subreddit, hcat, hq, Except.map]
  simp [run_scrape_job, hj, hc, hx, hsync, _format_error_message, isTooManyRequests,
    isResponseException, isForbidden, isNotFound, isServerError, isRequestException,
    isOAuthException, isRedirect, isPrawcoreException, excTypeName, excStr]

/-- Witness for the amended C3 at the concrete environment. -/
theorem c3_witness :
    run_scrape_job envC3 =
      [Event.store (StoreWrite.setRunning "S"), Event.dispatch,
       Event.store (StoreWrite.setFailed
         "ValueError: search_query is required for search category" "C"),
       Event.unregister] :=
  c3_amended cfgC3 provC3 envC3 rfl rfl rfl rfl rfl rfl

/-! ## C5: the streamer deduplicates on (status, progress) only -/

def pollsC5 : List (Option JobView) :=
  [some { status := "running", progress := 5, error_message := none },
   some { status := "running", progress := 5, error_message := some "transient provider error" }]

/-- Counterexample to C5 as stated: two successive polls that differ only
in error_message. The embedded streamer emits a single event (it compares
only status and progress), while the claimed triple-deduplication would
emit two; in particular a change of error_message alone does not trigger
an emission. -/
theorem c5_counterexample :
    stream_job_progress pollsC5 = [StreamEvent.dataEvent "running" 5 none] ∧
    event_generator_triple_spec none pollsC5 =
      [StreamEvent.dataEvent "running" 5 none,
       StreamEvent.dataEvent "running" 5 (some "transient provider error")] ∧
    stream_job_progress pollsC5 ≠ event_generator_triple_spec none pollsC5 := by
  refine ⟨by decide, by decide, by decide⟩

/-- With both last-state components known, the embedded loop agrees with
the pair-deduplication loop. -/
theorem event_generator_eq_pair_spec (polls : List (Option JobView)) (s : String) (p : Int) :
    event_generator (some s) p polls = event_generator_pair_spec (some (s, p)) polls := by
  induction polls generalizing s p with
  | nil => rfl
  | cons head rest ih =>
    cases head with
    | none => rfl
    | some jv =>
      simp only [event_generator, event_generator_pair_spec]
      have hcond : (some (jv.status, jv.progress) ≠ some (s, p)) ↔
          (some jv.status ≠ some s ∨ jv.progress ≠ p) := by
        simp [Prod.ext_iff]
        tauto
      by_cases hc2 : some jv.status ≠ some s ∨ jv.progress ≠ p
      · rw [if_pos hc2, if_pos (hcond.mpr hc2)]
        by_cases ht : isTerminalStatus jv.status
        · simp [ht]
        · simp [ht, ih]
      · rw [if_neg hc2, if_neg (fun h => hc2 (hcond.mp h))]
        by_cases ht : isTerminalStatus jv.status
        · simp [ht]
        · simp [ht, ih]

/-- Amended C5: on every polling tick the streamer reads the job record and
emits exactly when the (status, progress) pair differs from the pair of
the last emitted event — the first tick always emits when the record
exists, and error_message, while included in every emitted payload, does
not by itself trigger an emission. -/
theorem c5_amended_pair_dedup (polls : List (Option JobView)) :
    stream_job_progress polls = event_generator_pair_spec none polls := by
  cases polls with
  | nil => rfl
  | cons head rest =>
    cases head with
    | none => rfl
    | some jv =>
      simp only [stream_job_progress, event_generator, event_generator_pair_spec]
      have h1 : (some jv.status ≠ (none : Option String) ∨ jv.progress ≠ (-1 : Int)) :=
        Or.inl (by simp)
      have h2 : (some (jv.status, jv.progress) ≠ (none : Option (String × Int))) := by simp
      rw [if_pos h1, if_pos h2]
      by_cases ht : isTerminalStatus jv.status
      · simp [ht]
      · simp [ht, event_generator_eq_pair_spec]

/-! ## C6: loading emits 10 and 30; assembling spans 50 to 100 -/

def cfgC6 : CommentsConfig :=
  { url := "https://reddit.example/post", limit := 0, structured := true }

def provC6 : CommentsProvider :=
  { submission := sampleSubmission
    forest := [RawNode.comment sampleComment [], RawNode.comment sampleComment2 []]
    fetchFail := none, now := "N6" }

/-- Counterexample to C6 as stated: on a structured scrape of a two-entry
forest the callback sequence is (10,100), (30,100), (75,100), (100,100).
An assembling phase spanning 30 to 100 percent linearly over the resolved
top-level entries would instead give (65,100), (100,100): the third call
differs, so the phases are not 0-30 / 30-100. -/
theorem c6_counterexample :
    (scrape_comments cfgC6 provC6).1 =
      [{ current := 10, total := 100, message := "Loading comments..." },
       { current := 30, total := 100, message := "Processing comments..." },
       { current := 75, total := 100, message := "Building tree: 1/2" },
       { current := 100, total := 100, message := "Building tree: 2/2" }] ∧
    assemblingCallsSpecC6 provC6.forest.length =
      [{ current := 65, total := 100, message := "Building tree: 1/2" },
       { current := 100, total := 100, message := "Building tree: 2/2" }] ∧
    (scrape_comments cfgC6 provC6).1 ≠
      [{ current := 10, total := 100, message := "Loading comments..." },
       { current := 30, total := 100, message := "Processing comments..." }]
        ++ assemblingCallsSpecC6 provC6.forest.length := by
  refine ⟨by decide, by decide, by decide⟩

/-- Amended C6: a structured thread-comments scrape reports the fixed
loading calls (10,100) then (30,100), followed by an assembling phase
invoked with start 50 and end 100 whose i-th call (of total top-level
entries) carries 50 + int((i+1)/total*50) computed in binary64 floats —
progressing over the count of already-resolved top-level entries and
confined to [50, 100], not to the claimed [30, 100] span. -/
theorem c6_amended_progress_phases (cfg : CommentsConfig) (prov : CommentsProvider)
    (hs : cfg.structured = true) (hf : prov.fetchFail = none) :
    (scrape_comments cfg prov).1 =
      [{ current := 10, total := 100, message := "Loading comments..." },
       { current := 30, total := 100, message := "Processing comments..." }]
        ++ buildTreeCalls 50 100 prov.forest.length ∧
    (∀ c ∈ buildTreeCalls 50 100 prov.forest.length,
      50 ≤ c.current ∧ c.current ≤ 100) := by
  constructor
  · simp [scrape_comments, hf, hs, _build_comment_tree]
  · intro c hc
    simp only [buildTreeCalls, List.mem_map, List.mem_range] at hc
    obtain ⟨i, hi, hceq⟩ := hc
    have hlen : i + 1 ≤ prov.forest.length := hi
    have hdiv : pyIntDivMul (i + 1) prov.forest.length (100 - 50) ≤ 100 - 50 :=
      pyIntDivMul_le_mult (i + 1) prov.forest.length (100 - 50) hlen (by norm_num)
    subst hceq
    refine ⟨?_, ?_⟩
    · show 50 ≤ 50 + pyIntDivMul (i + 1) prov.forest.length (100 - 50)
      exact Nat.le_add_right 50 _
    · show 50 + pyIntDivMul (i + 1) prov.forest.length (100 - 50) ≤ 100
      exact le_trans (Nat.add_le_add_left hdiv 50) (by norm_num)

/-- Witness for the amended C6 at the concrete two-entry forest, with the
membership hypothesis discharged at the call (75, 100). -/
theorem c6_witness :
    (scrape_comments cfgC6 provC6).1 =
      [{ current := 10, total := 100, message := "Loading comments..." },
       { current := 30, total := 100, message := "Processing comments..." }]
        ++ buildTreeCalls 50 100 provC6.forest.length ∧
    (50 ≤ (75 : Nat) ∧ (75 : Nat) ≤ 100) := by
  refine ⟨(c6_amended_progress_phases cfgC6 provC6 rfl rfl).1, ?_⟩
  have h := (c6_amended_progress_phases cfgC6 provC6 rfl rfl).2
    { current := 75, total := 100, message := "Building tree: 1/2" } (by decide)
  exact h

/-! ## C7: a failed submissions fetch degrades, the job still completes -/

/-- Claim C7: when the submissions fetch of a profile scrape raises, the
submissions field becomes the one-element error-marker list, the comments
fetch still runs — the (50,100) call is issued and every comments-loop
call carries a value in [50, 100] — and the surrounding execution still
terminates with the completed write (exactly one), not a failure. -/
theorem c7_profile_partial_failure (cfg : RedditorConfig) (prov : RedditorProvider)
    (e : Exc) (env : JobEnv)
    (hfail : prov.subsFail = some e)
    (hlim : 0 < cfg.limit)
    (hlen : prov.commentItems.length ≤ cfg.limit)
    (hspec : env.spec = JobSpec.redditorJob cfg prov)
    (hj : env.jobFound = true) (hc : env.credsOk = true)
    (hx : env.cancelledAtAwait = false) :
    (scrape_redditor cfg prov).2.data.submissions = [ProfileSubmissionEntry.err (excStr e)] ∧
    ({ current := 50, total := 100, message := "Fetching comments..." } : ProgressCall)
      ∈ (scrape_redditor cfg prov).1 ∧
    (∀ c ∈ redditorCommentsCalls cfg.limit prov.commentItems.length,
      50 ≤ c.current ∧ c.current ≤ 100) ∧
    (run_scrape_job env).countP isCompletedWriteEvent = 1 := by
  have h0 : (cfg.limit == 0) = false := by
    simp only [beq_eq_false_iff_ne, ne_eq]
    omega
  refine ⟨?_, ?_, ?_, ?_⟩
  · simp [scrape_redditor, redditorSubsSection, hfail, h0]
  · simp [scrape_redditor]
  · intro c hc2
    simp only [redditorCommentsCalls, List.mem_map, List.mem_range] at hc2
    obtain ⟨i, hi, hceq⟩ := hc2
    have hle : i + 1 ≤ cfg.limit := by omega
    have hdiv : pyIntDivMul (i + 1) cfg.limit 50 ≤ 50 :=
      pyIntDivMul_le_mult (i + 1) cfg.limit 50 hle (by norm_num)
    subst hceq
    refine ⟨?_, ?_⟩
    · show 50 ≤ 50 + pyIntDivMul (i + 1) cfg.limit 50
      exact Nat.le_add_right 50 _
    · show 50 + pyIntDivMul (i + 1) cfg.limit 50 ≤ 100
      exact le_trans (Nat.add_le_add_left hdiv 50) (by norm_num)
  · simp [run_scrape_job, hj, hc, hx, hspec, _run_scrape_sync, List.countP_append,
      List.countP_cons, isCompletedWriteEvent]

def rawRedditorC7 : RawRedditor :=
  { name := "alice", created_utc := 0, comment_karma := 10, link_karma := 4
    is_gold := false, is_mod := false }

def cfgC7 : RedditorConfig := { username := "alice", limit := 2 }

def excC7 : Exc :=
  Exc.praw { cls := ExcClass.PrawcoreExceptionBase, statusCode := none, msg := "boom" }

def provC7 : RedditorProvider :=
  { infoResult := Except.ok rawRedditorC7
    subsItems := [], subsFail := some excC7
    commentItems := [sampleComment], commentsFail := none, now := "N7" }

def envC7 : JobEnv :=
  { jobFound := true, credsOk := true, cancelledAtAwait := false
    startedAt := "S7", completedAt := "C7"
    spec := JobSpec.redditorJob cfgC7 provC7 }

/-- Witness for C7 at a concrete profile scrape whose submissions fetch
raises, with the comments-call bound discharged at the (75, 100) call. -/
theorem c7_witness :
    (scrape_redditor cfgC7 provC7).2.data.submissions = [ProfileSubmissionEntry.err "boom"] ∧
    ({ current := 50, total := 100, message := "Fetching comments..." } : ProgressCall)
      ∈ (scrape_redditor cfgC7 provC7).1 ∧
    (50 ≤ (75 : Nat) ∧ (75 : Nat) ≤ 100) ∧
    (run_scrape_job envC7).countP isCompletedWriteEvent = 1 := by
  have h := c7_profile_partial_failure cfgC7 provC7 excC7 envC7 rfl (by decide) (by decide)
    rfl rfl rfl rfl
  refine ⟨h.1, h.2.1, ?_, h.2.2.2⟩
  exact h.2.2.1 { current := 75, total := 100, message := "Scraped 1 comments" } (by decide)

/-! ## C8: the structured tree preserves nesting, depth and order -/

mutual

/-- Depth checker: the node carries the given depth and every reply carries
depth + 1, recursively. -/
def depthOk : CommentNode → Nat → Bool
  | ⟨_, dep, rs⟩, d => (dep == d) && depthOkList rs (d + 1)

def depthOkList : List CommentNode → Nat → Bool
  | [], _ => true
  | n :: ns, d => depthOk n d && depthOkList ns d

end

mutual

/-- Shape checker: the built node serializes exactly the raw comment and
its replies mirror the raw reply sequence. -/
def mirrors : RawNode → CommentNode → Bool
  | .more, _ => false
  | .comment c rs, node =>
    (node.comment == serialize_comment c) && mirrorsList rs node.replies

/-- Order-preserving correspondence between a raw reply sequence and a
built reply sequence: MoreComments entries are skipped, every real comment
entry appears, in the provider order. -/
def mirrorsList : List RawNode → List CommentNode → Bool
  | [], [] => true
  | [], _ :: _ => false
  | .more :: rs, ns => mirrorsList rs ns
  | .comment _ _ :: _, [] => false
  | .comment c cr :: rs, n :: ns => mirrors (.comment c cr) n && mirrorsList rs ns

end

mutual

theorem depthOk_process_comment :
    ∀ (r : RawNode) (d : Nat) (n : CommentNode),
      process_comment r d = some n → depthOk n d = true
  | .more, d, n, h => by simp [process_comment] at h
  | .comment c rs, d, n, h => by
    simp only [process_comment, Option.some.injEq] at h
    subst h
    simp [depthOk, depthOkList_process_replies rs (d + 1)]

theorem depthOkList_process_replies :
    ∀ (rs : List RawNode) (d : Nat), depthOkList (process_replies rs d) d = true
  | [], _ => rfl
  | r :: rs, d => by
    simp only [process_replies]
    cases hr : process_comment r d with
    | none => exact depthOkList_process_replies rs d
    | some x =>
      simp [depthOkList, depthOk_process_comment r d x hr,
        depthOkList_process_replies rs d]

end

mutual

theorem mirrors_process_comment :
    ∀ (r : RawNode) (d : Nat) (n : CommentNode),
      process_comment r d = some n → mirrors r n = true
  | .more, d, n, h => by simp [process_comment] at h
  | .comment c rs, d, n, h => by
    simp only [process_comment, Option.some.injEq] at h
    subst h
    simp [mirrors, mirrorsList_process_replies rs (d + 1)]

theorem mirrorsList_process_replies :
    ∀ (rs : List RawNode) (d : Nat), mirrorsList rs (process_replies rs d) = true
  | [], _ => rfl
  | .more :: rs, d => by
    simp only [process_replies, process_comment]
    exact mirrorsList_process_replies rs d
  | .comment c cr :: rs, d => by
    simp only [process_replies, process_comment]
    simp [mirrorsList, mirrors_process_comment (RawNode.comment c cr) d _ rfl,
      mirrorsList_process_replies rs d]

end

/-- Claim C8: for every structured thread-comments scrape and every limit,
the built comment tree is exactly the processed forest, every root node
has depth 0 with each nesting level adding 1, and the reply sequences
mirror the provider order with the full nesting retained (MoreComments
placeholders skipped). -/
theorem c8_structured_tree_depths (cfg : CommentsConfig) (prov : CommentsProvider)
    (hs : cfg.structured = true) (hf : prov.fetchFail = none) :
    (∃ res, (scrape_comments cfg prov).2 = Except.ok res ∧
      res.data.comments = CommentsPayload.structuredTree (process_replies prov.forest 0)) ∧
    depthOkList (process_replies prov.forest 0) 0 = true ∧
    mirrorsList prov.forest (process_replies prov.forest 0) = true := by
  refine ⟨⟨?_, ?_, ?_⟩, depthOkList_process_replies prov.forest 0,
    mirrorsList_process_replies prov.forest 0⟩
  · exact
      { scrape_settings := { url := cfg.url, limit := cfg.limit, structured := cfg.structured }
        data :=
          { submission_metadata := serialize_submission prov.submission
            comments := CommentsPayload.structuredTree (process_replies prov.forest 0)
            total_comments := (bfsList prov.forest).length }
        scraped_at := prov.now }
  · simp [scrape_comments, hf, hs, _build_comment_tree]
  · rfl

def cfgC8 : CommentsConfig :=
  { url := "https://reddit.example/post2", limit := 7, structured := true }

def provC8 : CommentsProvider :=
  { submission := sampleSubmission
    forest := [RawNode.comment sampleComment
                 [RawNode.comment sampleComment2 [RawNode.comment sampleComment []],
                  RawNode.more],
               RawNode.more,
               RawNode.comment sampleComment2 []]
    fetchFail := none, now := "N8" }

/-- Witness for C8 at a concrete three-level forest with MoreComments
placeholders. -/
theorem c8_witness :
    depthOkList (process_replies provC8.forest 0) 0 = true ∧
    mirrorsList provC8.forest (process_replies provC8.forest 0) = true :=
  ⟨(c8_structured_tree_depths cfgC8 provC8 rfl rfl).2.1,
   (c8_structured_tree_depths cfgC8 provC8 rfl rfl).2.2⟩
